import Mathlib

/-!
Verification of `analyze_health_data.py`, a linear batch pipeline:
load a table of health-sensor readings, compute the means of three
numeric columns, count rows strictly above fixed thresholds, render a
fixed-layout text report, and write it to disk.

Modelling choices.  NumPy float64 values are modelled as exact
rationals; the not-a-number value produced by `mean()` on an empty
array is modelled by `none` in `NpFloat := Option ℚ`.  Python dicts
(with fixed literal keys, in insertion order) are modelled as
association lists `List (String × _)`.  The file system touched by
`save_report` is modelled by a small record of existing directories
and files, and `os.makedirs` by a function that fails exactly on the
empty path, as CPython's does.
-/

/-- One row of the table, following the structured dtype of `load_data`:
`[('patient_id','U10'), ('timestamp','U20'), ('heart_rate','i4'),
('blood_pressure_systolic','i4'), ('blood_pressure_diastolic','i4'),
('temperature','f4'), ('glucose_level','i4'), ('sensor_id','U10')]`. -/
structure Reading where
  patient_id : String
  timestamp : String
  heart_rate : Int
  blood_pressure_systolic : Int
  blood_pressure_diastolic : Int
  temperature : ℚ
  glucose_level : Int
  sensor_id : String
deriving DecidableEq, Repr

/-- The in-memory table: ordered sequence of readings, insertion order
preserved. -/
abbrev Table := List Reading

/-- A NumPy float64 value that may be NaN: `none` stands for NaN,
`some q` for the finite value `q`. -/
abbrev NpFloat := Option ℚ

/-- `ndarray.mean()` on an integer column: the sum divided by the
element count, NaN (`none`) when the array is empty. -/
def npMean (xs : List Int) : NpFloat :=
  if xs.length = 0 then none
  else some ((xs.sum : ℚ) / (xs.length : ℚ))

/-- `calculate_statistics(data)`: the dict
`{'avg_heart_rate': data['heart_rate'].mean(), 'avg_systolic_bp': ...,
'avg_glucose': ...}` as an association list in insertion order. -/
def calculate_statistics (data : Table) : List (String × NpFloat) :=
  [("avg_heart_rate", npMean (data.map Reading.heart_rate)),
   ("avg_systolic_bp", npMean (data.map Reading.blood_pressure_systolic)),
   ("avg_glucose", npMean (data.map Reading.glucose_level))]

/-- `find_abnormal_readings(data)`: boolean-mask sums
`(data['heart_rate'] > 90).sum()` and the two analogous counts, as a
dict in insertion order. -/
def find_abnormal_readings (data : Table) : List (String × Nat) :=
  [("high_heart_rate", data.countP (fun r => decide (r.heart_rate > 90))),
   ("high_blood_pressure", data.countP (fun r => decide (r.blood_pressure_systolic > 130))),
   ("high_glucose", data.countP (fun r => decide (r.glucose_level > 110)))]

/-- Round a rational to the nearest integer, ties to even — the
rounding used by `float.__format__` for exactly representable ties. -/
def roundHalfEven (q : ℚ) : Int :=
  let f := ⌊q⌋
  let r := q - (f : ℚ)
  if r < 1/2 then f
  else if 1/2 < r then f + 1
  else if f % 2 = 0 then f else f + 1

/-- Python's `format(x, '.1f')` on a finite float value: one digit
after the decimal point. -/
def formatFixed1 (q : ℚ) : String :=
  let n := roundHalfEven (q * 10)
  (if n < 0 then "-" else "") ++ toString (n.natAbs / 10) ++ "." ++ toString (n.natAbs % 10)

/-- `format(x, '.1f')` extended to NaN, which Python renders `nan`. -/
def formatFixed1N : NpFloat → String
  | none => "nan"
  | some q => formatFixed1 q

/-- Python's `sep.join(lines)`: elements interleaved with the
separator, nothing appended after the last element. -/
def pyJoin (sep : String) : List String → String
  | [] => ""
  | [s] => s
  | s :: rest => s ++ sep ++ pyJoin sep rest

/-- `generate_report(stats, abnormal, total_readings)`: builds the
sixteen report lines (the last one empty) and joins them with a
newline.  Dict subscripting is modelled by `lookup`; a missing key
(Python's `KeyError`) gives `none`. -/
def generate_report (stats : List (String × NpFloat)) (abnormal : List (String × Nat))
    (total_readings : Nat) : Option String := do
  let hr ← stats.lookup "avg_heart_rate"
  let bp ← stats.lookup "avg_systolic_bp"
  let gl ← stats.lookup "avg_glucose"
  let hhr ← abnormal.lookup "high_heart_rate"
  let hbp ← abnormal.lookup "high_blood_pressure"
  let hgl ← abnormal.lookup "high_glucose"
  let report : List String :=
    ["Health Sensor Data Analysis Report",
     "==================================",
     "",
     "Dataset Summary:",
     "- Total readings: " ++ toString total_readings,
     "",
     "Average Measurements:",
     "Heart Rate: " ++ formatFixed1N hr ++ " bpm",
     "Systolic BP: " ++ formatFixed1N bp ++ " mmHg",
     "Glucose Level: " ++ formatFixed1N gl ++ " mg/dL",
     "",
     "Abnormal Readings:",
     "High Heart Rate (>90): " ++ toString hhr ++ " readings",
     "High Blood Pressure (>130): " ++ toString hbp ++ " readings",
     "High Glucose (>110): " ++ toString hgl ++ " readings",
     ""]
  pure (pyJoin "\n" report)

/-- Index just past the last `/` in the character list, `0` when there
is none — the `p.rfind('/') + 1` step of `posixpath.dirname`. -/
def lastSlashEnd (cs : List Char) : Nat :=
  match cs with
  | [] => 0
  | c :: rest =>
    let r := lastSlashEnd rest
    if r = 0 then (if c = '/' then 1 else 0) else r + 1

/-- `os.path.dirname(p)` on POSIX: take the text up to and including
the last `/`, then strip trailing slashes unless the head is all
slashes. -/
def os_path_dirname (p : String) : String :=
  if p.data.take (lastSlashEnd p.data) ≠ []
      ∧ ¬ (p.data.take (lastSlashEnd p.data)).all (· = '/') then
    String.mk ((p.data.take (lastSlashEnd p.data)).reverse.dropWhile (· = '/')).reverse
  else
    String.mk (p.data.take (lastSlashEnd p.data))

/-- An error surfaced by a file-system call. -/
inductive OsError where
  | fileNotFound (path : String)
deriving DecidableEq, Repr

/-- The file-system state `save_report` touches: the set of existing
directories and the files written so far. -/
structure FS where
  dirs : List String
  files : List (String × String)
deriving DecidableEq, Repr

/-- `os.makedirs(p, exist_ok=True)`: creates `p` (and any missing
parents, abstracted here to recording `p`); raises `FileNotFoundError`
when `p` is the empty string, which `exist_ok` does not suppress. -/
def os_makedirs (p : String) (fs : FS) : Except OsError FS :=
  if p = "" then .error (.fileNotFound p)
  else .ok { fs with dirs := p :: fs.dirs }

/-- `save_report(report, filename)`: ensure the parent directory of
`filename` exists via `os.makedirs(os.path.dirname(filename),
exist_ok=True)`, then write the report as the file's contents. -/
def save_report (report : String) (filename : String) (fs : FS) : Except OsError FS := do
  let fs1 ← os_makedirs (os_path_dirname filename) fs
  .ok { fs1 with files := (filename, report) :: fs1.files }

/-- `calculate_statistics` as a computation over the shared table
state: it reads the table and performs no write to it. -/
def calculate_statisticsS : StateM Table (List (String × NpFloat)) := do
  let data ← get
  pure (calculate_statistics data)

/-- `find_abnormal_readings` as a computation over the shared table
state: it reads the table and performs no write to it. -/
def find_abnormal_readingsS : StateM Table (List (String × Nat)) := do
  let data ← get
  pure (find_abnormal_readings data)

/-- The aggregator followed by the scanner, run against the shared
table, returning both outputs — the downstream part of `main`. -/
def pipelineReads : StateM Table (List (String × NpFloat) × List (String × Nat)) := do
  let stats ← calculate_statisticsS
  let abnormal ← find_abnormal_readingsS
  pure (stats, abnormal)

/-- The aggregator run twice against the same shared table state. -/
def statsTwice : StateM Table (List (String × NpFloat) × List (String × NpFloat)) := do
  let first ← calculate_statisticsS
  let second ← calculate_statisticsS
  pure (first, second)

/-- The scanner run twice against the same shared table state. -/
def scanTwice : StateM Table (List (String × Nat) × List (String × Nat)) := do
  let first ← find_abnormal_readingsS
  let second ← find_abnormal_readingsS
  pure (first, second)

/-- Modelled from the spec (§4.1): the mean of a column is the sum of
all values in the column divided by the row count, undefined (NaN) on
an empty table. -/
def specColumnMean (t : Table) (f : Reading → Int) : NpFloat :=
  if t.length = 0 then none
  else some (((t.map f).sum : ℚ) / (t.length : ℚ))

/-- Modelled from the spec (§4.2): the count of rows whose value in a
column strictly exceeds a fixed threshold. -/
def specStrictCount (t : Table) (f : Reading → Int) (threshold : Int) : Nat :=
  (t.filter (fun r => decide (threshold < f r))).length

/-- Modelled from the spec (§4.3): the report template, transcribed
byte for byte, with the three averages formatted to one digit after
the decimal point and the counts as plain integers. -/
def specReportBlock (a b c : ℚ) (x y z n : Nat) : String :=
  "Health Sensor Data Analysis Report\n==================================\n\nDataset Summary:\n- Total readings: "
    ++ toString n
    ++ "\n\nAverage Measurements:\nHeart Rate: "
    ++ formatFixed1 a
    ++ " bpm\nSystolic BP: "
    ++ formatFixed1 b
    ++ " mmHg\nGlucose Level: "
    ++ formatFixed1 c
    ++ " mg/dL\n\nAbnormal Readings:\nHigh Heart Rate (>90): "
    ++ toString x
    ++ " readings\nHigh Blood Pressure (>130): "
    ++ toString y
    ++ " readings\nHigh Glucose (>110): "
    ++ toString z
    ++ " readings\n"

/-- The mean of a nonempty integer list lies between the list's
minimum and maximum. -/
def meanInBounds (xs : List Int) : Prop :=
  ∃ q lo hi, npMean xs = some q ∧ xs.min? = some lo ∧ xs.max? = some hi
    ∧ (lo : ℚ) ≤ q ∧ q ≤ (hi : ℚ)

/-- The 3-row table of test scenario 1 (§8): heart rates 80, 95, 100;
systolic pressures 120, 135, 128; glucose levels 100, 115, 90.  The
columns the claims do not constrain hold arbitrary valid values. -/
def scenarioTable : Table :=
  [⟨"P001", "2024-01-01T08:00", 80, 120, 78, 366/10, 100, "S01"⟩,
   ⟨"P002", "2024-01-01T09:00", 95, 135, 88, 370/10, 115, "S02"⟩,
   ⟨"P003", "2024-01-01T10:00", 100, 128, 82, 368/10, 90, "S03"⟩]

/-- A single reading sitting exactly at each threshold: heart rate 90,
systolic pressure 130, glucose 110 (test scenario 2 of §8). -/
def thresholdReading : Reading :=
  ⟨"P010", "2024-01-02T08:00", 90, 130, 80, 368/10, 110, "S10"⟩

/-- String append is associative. -/
theorem strAppend_assoc : ∀ a b c : String, a ++ b ++ c = a ++ (b ++ c)
  | ⟨d1⟩, ⟨d2⟩, ⟨d3⟩ => congrArg String.mk (List.append_assoc d1 d2 d3)

/-- The empty string is a left identity for append. -/
theorem strEmpty_append : ∀ s : String, "" ++ s = s
  | ⟨d⟩ => congrArg String.mk (List.nil_append d)

/-- The empty string is a right identity for append. -/
theorem strAppend_empty : ∀ s : String, s ++ "" = s
  | ⟨d⟩ => congrArg String.mk (List.append_nil d)

/-- Rows strictly above a threshold plus rows at or below it account
for the whole list. -/
theorem countP_lt_add_length_filter_le (f : Reading → Int) (c : Int) (t : List Reading) :
    t.countP (fun r => decide (c < f r))
      + (t.filter (fun r => decide (f r ≤ c))).length = t.length := by
  induction t with
  | nil => rfl
  | cons r rest ih =>
    by_cases h : c < f r
    · have h2 : ¬ (f r ≤ c) := not_le.2 h
      simp [List.countP_cons, List.filter_cons, h, h2]
      omega
    · have h2 : f r ≤ c := not_lt.1 h
      simp [List.countP_cons, List.filter_cons, h, h2]
      omega

/-- Claim C1: for every table, `calculate_statistics` returns a
mapping with exactly three entries, the means of `heart_rate`,
`blood_pressure_systolic` and `glucose_level`, each equal to the sum
of the column divided by the row count (NaN on an empty table). -/
theorem calculate_statistics_exactly_three_means (t : Table) :
    (calculate_statistics t).length = 3
  ∧ calculate_statistics t =
      [("avg_heart_rate", specColumnMean t Reading.heart_rate),
       ("avg_systolic_bp", specColumnMean t Reading.blood_pressure_systolic),
       ("avg_glucose", specColumnMean t Reading.glucose_level)] := by
  refine ⟨rfl, ?_⟩
  simp [calculate_statistics, specColumnMean, npMean]

/-- Claim C2: for every table, `find_abnormal_readings` returns
exactly the three counts of rows strictly above the fixed thresholds
90, 130 and 110; on a single row sitting exactly at each threshold all
three counts are 0. -/
theorem find_abnormal_readings_strict_thresholds :
    (∀ t : Table, find_abnormal_readings t =
      [("high_heart_rate", specStrictCount t Reading.heart_rate 90),
       ("high_blood_pressure", specStrictCount t Reading.blood_pressure_systolic 130),
       ("high_glucose", specStrictCount t Reading.glucose_level 110)])
  ∧ find_abnormal_readings [thresholdReading] =
      [("high_heart_rate", 0), ("high_blood_pressure", 0), ("high_glucose", 0)] := by
  constructor
  · intro t
    simp [find_abnormal_readings, specStrictCount, List.countP_eq_length_filter]
  · decide

/-- Claim C4: on the empty table `calculate_statistics` returns NaN
for every mean (the NaN branch of the two behaviours the spec
allows). -/
theorem calculate_statistics_empty_table_nan :
    calculate_statistics ([] : Table) =
      [("avg_heart_rate", (none : NpFloat)), ("avg_systolic_bp", none), ("avg_glucose", none)] :=
  rfl

/-- Claim C5: the scanner's count of rows strictly above each
threshold plus the rows at or below it equals the table length, for
all three metrics. -/
theorem find_abnormal_readings_count_conservation (t : Table) :
    ((find_abnormal_readings t).lookup "high_heart_rate").getD 0
        + (t.filter (fun r => decide (r.heart_rate ≤ 90))).length = t.length
  ∧ ((find_abnormal_readings t).lookup "high_blood_pressure").getD 0
        + (t.filter (fun r => decide (r.blood_pressure_systolic ≤ 130))).length = t.length
  ∧ ((find_abnormal_readings t).lookup "high_glucose").getD 0
        + (t.filter (fun r => decide (r.glucose_level ≤ 110))).length = t.length :=
  ⟨countP_lt_add_length_filter_le Reading.heart_rate 90 t,
   countP_lt_add_length_filter_le Reading.blood_pressure_systolic 130 t,
   countP_lt_add_length_filter_le Reading.glucose_level 110 t⟩

/-- Claim C7: the aggregator and the scanner are deterministic — two
runs against the same table state return identical outputs. -/
theorem aggregator_scanner_deterministic (t : Table) :
    (statsTwice.run t).1.1 = (statsTwice.run t).1.2
  ∧ (scanTwice.run t).1.1 = (scanTwice.run t).1.2 :=
  ⟨rfl, rfl⟩

/-- Claim C8: running the aggregator and the scanner (separately or in
sequence) leaves the table state unchanged, and the sequence returns
exactly the two pure results — all downstream computation is
read-only. -/
theorem aggregator_scanner_table_unchanged (t : Table) :
    (calculate_statisticsS.run t).2 = t
  ∧ (find_abnormal_readingsS.run t).2 = t
  ∧ (pipelineReads.run t).2 = t
  ∧ (pipelineReads.run t).1 = (calculate_statistics t, find_abnormal_readings t) :=
  ⟨rfl, rfl, rfl, rfl⟩

/-- A lower bound on every element bounds the sum from below. -/
theorem mul_length_le_sum (a : Int) (xs : List Int) (h : ∀ x ∈ xs, a ≤ x) :
    a * xs.length ≤ xs.sum := by
  induction xs with
  | nil => simp
  | cons x rest ih =>
    have hx : a ≤ x := h x (by simp)
    have ih' := ih (fun y hy => h y (by simp [hy]))
    simp only [List.sum_cons, List.length_cons]
    push_cast
    calc a * ((rest.length : Int) + 1) = a * rest.length + a := by ring
    _ ≤ rest.sum + x := add_le_add ih' hx
    _ = x + rest.sum := by ring

/-- An upper bound on every element bounds the sum from above. -/
theorem sum_le_mul_length (a : Int) (xs : List Int) (h : ∀ x ∈ xs, x ≤ a) :
    xs.sum ≤ a * xs.length := by
  induction xs with
  | nil => simp
  | cons x rest ih =>
    have hx : x ≤ a := h x (by simp)
    have ih' := ih (fun y hy => h y (by simp [hy]))
    simp only [List.sum_cons, List.length_cons]
    push_cast
    calc x + rest.sum ≤ a + a * rest.length := add_le_add hx ih'
    _ = a * ((rest.length : Int) + 1) := by ring

/-- The `mean()` of a nonempty integer list lies between the list's
minimum and its maximum. -/
theorem meanInBounds_of_ne_nil (xs : List Int) (h : xs ≠ []) : meanInBounds xs := by
  have hlen : 0 < xs.length := List.length_pos.2 h
  have hmin : ∃ lo, xs.min? = some lo := by
    obtain ⟨x, l, rfl⟩ := List.exists_cons_of_ne_nil h
    exact ⟨_, List.min?_cons⟩
  have hmax : ∃ hi, xs.max? = some hi := by
    obtain ⟨x, l, rfl⟩ := List.exists_cons_of_ne_nil h
    exact ⟨_, List.max?_cons⟩
  obtain ⟨lo, hlo⟩ := hmin
  obtain ⟨hi, hhi⟩ := hmax
  have anti : Std.Antisymm (fun x1 x2 : Int => x1 ≤ x2) :=
    ⟨fun h1 h2 => le_antisymm h1 h2⟩
  have hlo' := (@List.min?_eq_some_iff Int lo _ _ anti (fun a => le_refl a)
    (fun a b => min_choice a b) (fun a b c => le_min_iff) xs).1 hlo
  have hhi' := (@List.max?_eq_some_iff Int hi _ _ anti (fun a => le_refl a)
    (fun a b => max_choice a b) (fun a b c => max_le_iff) xs).1 hhi
  have hlenQ : (0 : ℚ) < (xs.length : ℚ) := by exact_mod_cast hlen
  have hne0 : xs.length ≠ 0 := Nat.pos_iff_ne_zero.1 hlen
  have hsumlo : lo * (xs.length : Int) ≤ xs.sum := mul_length_le_sum lo xs hlo'.2
  have hsumhi : xs.sum ≤ hi * (xs.length : Int) := sum_le_mul_length hi xs hhi'.2
  refine ⟨(xs.sum : ℚ) / (xs.length : ℚ), lo, hi, ?_, hlo, hhi, ?_, ?_⟩
  · simp [npMean, hne0]
  · rw [le_div_iff₀ hlenQ]
    exact_mod_cast hsumlo
  · rw [div_le_iff₀ hlenQ]
    exact_mod_cast hsumhi

/-- Claim C6: for a nonempty table, each of the three means the
aggregator returns lies within the minimum and maximum of its
column's values. -/
theorem calculate_statistics_mean_bounds (t : Table) (h : t ≠ []) :
    ((calculate_statistics t).lookup "avg_heart_rate"
        = some (npMean (t.map Reading.heart_rate))
      ∧ meanInBounds (t.map Reading.heart_rate))
  ∧ ((calculate_statistics t).lookup "avg_systolic_bp"
        = some (npMean (t.map Reading.blood_pressure_systolic))
      ∧ meanInBounds (t.map Reading.blood_pressure_systolic))
  ∧ ((calculate_statistics t).lookup "avg_glucose"
        = some (npMean (t.map Reading.glucose_level))
      ∧ meanInBounds (t.map Reading.glucose_level)) := by
  have hm : ∀ f : Reading → Int, t.map f ≠ [] := fun f hc =>
    h (List.length_eq_zero.1 (by simpa using congrArg List.length hc))
  exact ⟨⟨rfl, meanInBounds_of_ne_nil _ (hm _)⟩,
         ⟨rfl, meanInBounds_of_ne_nil _ (hm _)⟩,
         ⟨rfl, meanInBounds_of_ne_nil _ (hm _)⟩⟩

/-- The mean-bounds theorem applied to the concrete 3-row scenario
table. -/
theorem calculate_statistics_mean_bounds_witness :
    scenarioTable ≠ []
  ∧ (((calculate_statistics scenarioTable).lookup "avg_heart_rate"
        = some (npMean (scenarioTable.map Reading.heart_rate))
      ∧ meanInBounds (scenarioTable.map Reading.heart_rate))
  ∧ ((calculate_statistics scenarioTable).lookup "avg_systolic_bp"
        = some (npMean (scenarioTable.map Reading.blood_pressure_systolic))
      ∧ meanInBounds (scenarioTable.map Reading.blood_pressure_systolic))
  ∧ ((calculate_statistics scenarioTable).lookup "avg_glucose"
        = some (npMean (scenarioTable.map Reading.glucose_level))
      ∧ meanInBounds (scenarioTable.map Reading.glucose_level))) :=
  ⟨List.cons_ne_nil _ _,
   calculate_statistics_mean_bounds scenarioTable (List.cons_ne_nil _ _)⟩

/-- Claim C9: on the 3-row scenario table the pipeline computes
formatted averages 91.7, 127.7 and 101.7, abnormal counts 2, 1 and 1,
and 3 total readings. -/
theorem scenario_three_rows_pipeline :
    ((calculate_statistics scenarioTable).lookup "avg_heart_rate").map formatFixed1N = some "91.7"
  ∧ ((calculate_statistics scenarioTable).lookup "avg_systolic_bp").map formatFixed1N = some "127.7"
  ∧ ((calculate_statistics scenarioTable).lookup "avg_glucose").map formatFixed1N = some "101.7"
  ∧ (find_abnormal_readings scenarioTable).lookup "high_heart_rate" = some 2
  ∧ (find_abnormal_readings scenarioTable).lookup "high_blood_pressure" = some 1
  ∧ (find_abnormal_readings scenarioTable).lookup "high_glucose" = some 1
  ∧ scenarioTable.length = 3 := by
  have m1 : npMean (scenarioTable.map Reading.heart_rate) = some (275/3) := by
    simp [scenarioTable, npMean]
  have m2 : npMean (scenarioTable.map Reading.blood_pressure_systolic) = some (383/3) := by
    simp [scenarioTable, npMean]
  have m3 : npMean (scenarioTable.map Reading.glucose_level) = some (305/3) := by
    simp [scenarioTable, npMean]
  have f1 : formatFixed1 (275/3) = "91.7" := by
    unfold formatFixed1 roundHalfEven
    norm_num
    rfl
  have f2 : formatFixed1 (383/3) = "127.7" := by
    unfold formatFixed1 roundHalfEven
    norm_num
    rfl
  have f3 : formatFixed1 (305/3) = "101.7" := by
    unfold formatFixed1 roundHalfEven
    norm_num
    rfl
  have l1 : (calculate_statistics scenarioTable).lookup "avg_heart_rate"
      = some (npMean (scenarioTable.map Reading.heart_rate)) := rfl
  have l2 : (calculate_statistics scenarioTable).lookup "avg_systolic_bp"
      = some (npMean (scenarioTable.map Reading.blood_pressure_systolic)) := rfl
  have l3 : (calculate_statistics scenarioTable).lookup "avg_glucose"
      = some (npMean (scenarioTable.map Reading.glucose_level)) := rfl
  refine ⟨?_, ?_, ?_, by decide, by decide, by decide, rfl⟩
  · rw [l1, m1]
    simp [formatFixed1N, f1]
  · rw [l2, m2]
    simp [formatFixed1N, f2]
  · rw [l3, m3]
    simp [formatFixed1N, f3]


theorem generate_report_matches_template (a b c : ℚ) (x y z n : Nat) :
    generate_report
        [("avg_heart_rate", some a), ("avg_systolic_bp", some b), ("avg_glucose", some c)]
        [("high_heart_rate", x), ("high_blood_pressure", y), ("high_glucose", z)] n
      = some (specReportBlock a b c x y z n)
  ∧ (specReportBlock a b c x y z n).data.getLast? = some '\n' := by
  constructor
  · show some (pyJoin "\n"
      ["Health Sensor Data Analysis Report",
       "==================================",
       "",
       "Dataset Summary:",
       "- Total readings: " ++ toString n,
       "",
       "Average Measurements:",
       "Heart Rate: " ++ formatFixed1N (some a) ++ " bpm",
       "Systolic BP: " ++ formatFixed1N (some b) ++ " mmHg",
       "Glucose Level: " ++ formatFixed1N (some c) ++ " mg/dL",
       "",
       "Abnormal Readings:",
       "High Heart Rate (>90): " ++ toString x ++ " readings",
       "High Blood Pressure (>130): " ++ toString y ++ " readings",
       "High Glucose (>110): " ++ toString z ++ " readings",
       ""]) = some (specReportBlock a b c x y z n)
    refine congrArg some ?_
    unfold specReportBlock
    rw [show ("Health Sensor Data Analysis Report\n==================================\n\nDataset Summary:\n- Total readings: " : String)
        = "Health Sensor Data Analysis Report" ++ "\n" ++ "==================================" ++ "\n" ++ "\n" ++ "Dataset Summary:" ++ "\n" ++ "- Total readings: " from rfl]
    rw [show ("\n\nAverage Measurements:\nHeart Rate: " : String)
        = "\n" ++ "\n" ++ "Average Measurements:" ++ "\n" ++ "Heart Rate: " from rfl]
    rw [show (" bpm\nSystolic BP: " : String) = " bpm" ++ "\n" ++ "Systolic BP: " from rfl]
    rw [show (" mmHg\nGlucose Level: " : String) = " mmHg" ++ "\n" ++ "Glucose Level: " from rfl]
    rw [show (" mg/dL\n\nAbnormal Readings:\nHigh Heart Rate (>90): " : String)
        = " mg/dL" ++ "\n" ++ "\n" ++ "Abnormal Readings:" ++ "\n" ++ "High Heart Rate (>90): " from rfl]
    rw [show (" readings\nHigh Blood Pressure (>130): " : String)
        = " readings" ++ "\n" ++ "High Blood Pressure (>130): " from rfl]
    rw [show (" readings\nHigh Glucose (>110): " : String)
        = " readings" ++ "\n" ++ "High Glucose (>110): " from rfl]
    rw [show (" readings\n" : String) = " readings" ++ "\n" from rfl]
    simp only [pyJoin, formatFixed1N, strAppend_assoc, strEmpty_append, strAppend_empty]
  · have hg : (" readings\n" : String).data.getLast? = some '\n' := by decide
    unfold specReportBlock
    rw [String.data_append, List.getLast?_append, hg]
    rfl

/-- The last-slash index is zero exactly when the path has no slash. -/
theorem lastSlashEnd_eq_zero_iff (cs : List Char) : lastSlashEnd cs = 0 ↔ '/' ∉ cs := by
  induction cs with
  | nil => simp [lastSlashEnd]
  | cons ch rest ih =>
    by_cases hr : lastSlashEnd rest = 0
    · have hnr : '/' ∉ rest := ih.1 hr
      by_cases hc : ch = '/'
      · simp [lastSlashEnd, hr, hc]
      · simp [lastSlashEnd, hr, hc, hnr, Ne.symm hc]
    · have hmem : '/' ∈ rest := by
        by_contra hn
        exact hr (ih.2 hn)
      simp [lastSlashEnd, hr, hmem]

/-- A path containing a slash has a nonempty dirname. -/
theorem os_path_dirname_ne_empty (p : String) (h0 : lastSlashEnd p.data ≠ 0)
    (hne : p.data ≠ []) : os_path_dirname p ≠ "" := by
  have hpos : 0 < lastSlashEnd p.data := Nat.pos_iff_ne_zero.2 h0
  have hlen : 0 < p.data.length := List.length_pos.2 hne
  have hhead : p.data.take (lastSlashEnd p.data) ≠ [] := by
    apply List.ne_nil_of_length_pos
    rw [List.length_take]
    exact lt_min hpos hlen
  unfold os_path_dirname
  split
  next hcond =>
    intro hc
    have hdata : ((p.data.take (lastSlashEnd p.data)).reverse.dropWhile (· = '/')).reverse = [] :=
      congrArg String.data hc
    have hnil : (p.data.take (lastSlashEnd p.data)).reverse.dropWhile (· = '/') = [] :=
      List.reverse_eq_nil_iff.1 hdata
    have hall2 := List.dropWhile_eq_nil_iff.1 hnil
    apply hcond.2
    rw [List.all_eq_true]
    intro xx hx
    exact hall2 xx (List.mem_reverse.2 hx)
  next hcond =>
    intro hc
    exact hhead (congrArg String.data hc)

/-- Claim C10: `save_report` fails with `FileNotFoundError` whenever
the output filename has no directory separator (its dirname is empty
and `os.makedirs('')` raises), and succeeds — creating the missing
parent directory and writing the file — whenever the filename contains
a separator. -/
theorem save_report_dirname_behavior (report filename : String) (fs : FS) :
    ('/' ∉ filename.data → save_report report filename fs = .error (.fileNotFound ""))
  ∧ ('/' ∈ filename.data → ∃ fs2, save_report report filename fs = .ok fs2
        ∧ os_path_dirname filename ∈ fs2.dirs ∧ (filename, report) ∈ fs2.files) := by
  constructor
  · intro h
    have h0 : lastSlashEnd filename.data = 0 := (lastSlashEnd_eq_zero_iff _).2 h
    have hd : os_path_dirname filename = "" := by
      unfold os_path_dirname
      rw [h0]
      simp
    unfold save_report os_makedirs
    rw [hd]
    rfl
  · intro h
    have h0 : lastSlashEnd filename.data ≠ 0 := fun hc => (lastSlashEnd_eq_zero_iff _).1 hc h
    have hne : filename.data ≠ [] := by
      intro hc
      rw [hc] at h
      exact absurd h (List.not_mem_nil _)
    have hd : os_path_dirname filename ≠ "" := os_path_dirname_ne_empty filename h0 hne
    refine ⟨⟨os_path_dirname filename :: fs.dirs, (filename, report) :: fs.files⟩, ?_, ?_, ?_⟩
    · unfold save_report os_makedirs
      rw [if_neg hd]
      rfl
    · exact List.mem_cons_self _ _
    · exact List.mem_cons_self _ _

/-- The dirname-behaviour theorem applied to a bare filename and to
the repository's actual output path. -/
theorem save_report_dirname_behavior_witness :
    ('/' ∉ ("report.txt" : String).data
      ∧ save_report "R" "report.txt" (FS.mk [] []) = .error (.fileNotFound ""))
  ∧ ('/' ∈ ("output/analysis_report.txt" : String).data
      ∧ ∃ fs2, save_report "R" "output/analysis_report.txt" (FS.mk [] []) = .ok fs2
          ∧ os_path_dirname "output/analysis_report.txt" ∈ fs2.dirs
          ∧ ("output/analysis_report.txt", "R") ∈ fs2.files) :=
  ⟨⟨by decide, (save_report_dirname_behavior "R" "report.txt" (FS.mk [] [])).1 (by decide)⟩,
   ⟨by decide, (save_report_dirname_behavior "R" "output/analysis_report.txt" (FS.mk [] [])).2 (by decide)⟩⟩
